import Mathlib

/-
Verification of the CV-server rate-limiting specification against the
repository `crazytosser25/cv` (src/main.py).

The application wires the `fastapi_limiter` dependency
`RateLimiter(times=5, seconds=30)` onto each HTTP route.  The limiter
algorithm itself lives in that external dependency, so it is modelled
here from the specification (fixed-window counting over a shared
key-value store with expiry); the route table, the static mount, the
lifespan hook and the health-check handler are embedded directly from
`src/main.py`.

Time is modelled in milliseconds (the counter store reports remaining
time-to-live in milliseconds); a window `period` is configured in
seconds.
-/

namespace CV

/-- A per-key rate-limit window: the number of requests counted in the
current window and the absolute time (in milliseconds) at which the
window expires.  Modelled from the spec: `RateLimitWindow` of the data
model (the configured `limit` and `period` are passed to `check`, not
stored). -/
structure Window where
  count : Nat
  expiresAt : Nat
deriving Repr, DecidableEq

/-- The shared counter store: a partial map from rate-limit keys to
their current window.  An absent key means either no request was ever
counted or the store's expiry already removed the entry. -/
abbrev Store := String → Option Window

/-- The empty counter store. -/
def Store.empty : Store := fun _ => none

/-- Write one key's window into the store. -/
def Store.set (s : Store) (k : String) (w : Window) : Store :=
  fun k2 => if k2 = k then some w else s k2

/-- The decision returned by one `check` call.  Modelled from the spec:
`Allow`, or `Reject` carrying `retry_after` in seconds. -/
inductive Decision where
  | allow : Decision
  | reject (retryAfter : Nat) : Decision
deriving Repr, DecidableEq

/-- Modelled from the spec: the rate limiter's single operation
`check(key, limit, period)` (the algorithm lives in the external
`fastapi_limiter` dependency, not under src/).  On a missing or expired
window, a fresh window with `count = 1` and expiry `period` seconds
from `now` is created and the request is allowed.  Otherwise, if the
count has reached `limit` the request is rejected with `retry_after`
equal to the remaining time-to-live rounded up to whole seconds and
reported as at least 1, and the store is left untouched; if not, the
count is incremented (the expiry is not extended) and the request is
allowed. -/
def check (limit period now : Nat) (key : String) (s : Store) :
    Decision × Store :=
  match s key with
  | none => (Decision.allow, Store.set s key ⟨1, now + period * 1000⟩)
  | some w =>
      if w.expiresAt ≤ now then
        (Decision.allow, Store.set s key ⟨1, now + period * 1000⟩)
      else if limit ≤ w.count then
        (Decision.reject (max 1 ((w.expiresAt - now + 999) / 1000)), s)
      else
        (Decision.allow, Store.set s key ⟨w.count + 1, w.expiresAt⟩)

/-- Run a sequence of `check` calls; each event is a timestamp paired
with the key of the arriving request.  Returns the key-tagged decision
of every call together with the final store. -/
def runChecks (limit period : Nat) :
    List (Nat × String) → Store → List (String × Decision) × Store
  | [], s => ([], s)
  | (t, k) :: evs, s =>
      let c := check limit period t k s
      let rest := runChecks limit period evs c.2
      ((k, c.1) :: rest.1, rest.2)

/-- Errors of the rate limiter.  Modelled from the spec's error
taxonomy: `StoreUnavailable` when the counter store cannot be reached,
`InvalidConfiguration` for a non-positive `limit` or `period`. -/
inductive LimiterError where
  | storeUnavailable : LimiterError
  | invalidConfiguration : LimiterError
deriving Repr, DecidableEq

/-- Modelled from the spec: a `check` call against a store that may be
unreachable.  When the store is unavailable the call fails with
`StoreUnavailable` and performs no retry; configuration is never
examined at request time. -/
def checkE (avail : Bool) (limit period now : Nat) (key : String)
    (s : Store) : Except LimiterError (Decision × Store) :=
  if avail then Except.ok (check limit period now key s)
  else Except.error LimiterError.storeUnavailable

/-- Modelled from the spec: registration-time validation of a route's
rate-limit configuration.  A non-positive `limit` or `period` fails
fast with `InvalidConfiguration`; a valid pair is stored as natural
numbers. -/
def registerLimiter (times seconds : Int) :
    Except LimiterError (Nat × Nat) :=
  if times ≤ 0 ∨ seconds ≤ 0 then Except.error LimiterError.invalidConfiguration
  else Except.ok (times.toNat, seconds.toNat)

/-- The HTTP-level outcome of one request: the handler's response body,
a 429 rejection carrying `retry_after`, or a server error when the
counter store was unreachable. -/
inductive Response where
  | ok (body : List (String × String)) : Response
  | tooManyRequests (retryAfter : Nat) : Response
  | serverError : Response
deriving Repr, DecidableEq

/-- HTTP status code of a response. -/
def Response.status : Response → Nat
  | Response.ok _ => 200
  | Response.tooManyRequests _ => 429
  | Response.serverError => 500

/-- One gated request through the HTTP layer: the limiter runs before
the handler; `Allow` lets the handler's `body` through, `Reject`
becomes a 429 with `retry_after`, and a limiter error propagates as a
server error with the store untouched (fail-closed by omission, as in
`src/main.py` where no exception handling surrounds the
`RateLimiter` dependencies). -/
def handleRequest (avail : Bool) (limit period now : Nat) (key : String)
    (body : List (String × String)) (s : Store) : Response × Store :=
  match checkE avail limit period now key s with
  | Except.error _ => (Response.serverError, s)
  | Except.ok (Decision.allow, s2) => (Response.ok body, s2)
  | Except.ok (Decision.reject r, s2) => (Response.tooManyRequests r, s2)

/-- One registered route of the application: its path and, when the
route declares a `RateLimiter(times, seconds)` dependency, that
configuration. -/
structure RouteEntry where
  path : String
  rateLimit : Option (Nat × Nat)
deriving Repr, DecidableEq

/-- Routes of `pages_router` in src/main.py. -/
def pagesRouter : List RouteEntry :=
  [⟨"/", some (5, 30)⟩]

/-- Routes of `docs_router` in src/main.py. -/
def docsRouter : List RouteEntry :=
  [⟨"/download/cv", some (5, 30)⟩,
   ⟨"/download/lebenslauf", some (5, 30)⟩]

/-- Routes of `service_router` in src/main.py. -/
def serviceRouter : List RouteEntry :=
  [⟨"/healthchecker", some (5, 30)⟩,
   ⟨"/favicon.ico", some (5, 30)⟩,
   ⟨"/css/styles.css", some (5, 30)⟩,
   ⟨"/images/photo", some (5, 30)⟩]

/-- The routes the application registers through `include_router`. -/
def appRoutes : List RouteEntry :=
  pagesRouter ++ docsRouter ++ serviceRouter

/-- The static-file mount `app.mount("/static", StaticFiles(...))` in
src/main.py: it is registered with no `RateLimiter` dependency. -/
def staticMount : RouteEntry := ⟨"/static", none⟩

/-- The complete HTTP surface: the seven registered routes plus the
static mount. -/
def appSurface : List RouteEntry := appRoutes ++ [staticMount]

/-- Body returned by the `/healthchecker` handler `root` in
src/main.py: `result = {"message": "Server alive."}`. -/
def root : List (String × String) := [("message", "Server alive.")]

/-- State of the process-wide counter-store connection `r`. -/
inductive ConnState where
  | uninit : ConnState
  | opened : ConnState
  | closed : ConnState
deriving Repr, DecidableEq

/-- Startup half of `lifespan` in src/main.py:
`r = await redis.Redis(...)` followed by `await FastAPILimiter.init(r)`
— the connection object is created and awaited, so it is open. -/
def lifespanStartup (_s : ConnState) : ConnState := ConnState.opened

/-- What the body of the asynchronous `close()` coroutine does to the
connection when it actually runs. -/
def closeBody (_s : ConnState) : ConnState := ConnState.closed

/-- Shutdown half of `lifespan` in src/main.py: the statement
`r.close()` calls the asynchronous `close` method of the
`redis.asyncio` client without `await`, so it only constructs a
coroutine object that is never scheduled; the body of `close` never
runs and the connection state is unchanged. -/
def lifespanShutdown (s : ConnState) : ConnState := s

/-- The connection state after running the application's full lifespan:
startup, serve, shutdown. -/
def lifespanRun : ConnState := lifespanShutdown (lifespanStartup ConnState.uninit)

/-! Supporting lemmas about `check`. -/

/-- Reading back the key just written. -/
theorem Store.set_self (s : Store) (k : String) (w : Window) :
    Store.set s k w k = some w := by
  simp [Store.set]

/-- Reading a different key after a write. -/
theorem Store.set_other (s : Store) (k k2 : String) (w : Window)
    (h : k2 ≠ k) : Store.set s k w k2 = s k2 := by
  simp [Store.set, h]

/-- A live, unexhausted window: `check` allows and increments. -/
theorem check_allow_incr (limit period now : Nat) (key : String)
    (s : Store) (c e : Nat) (hw : s key = some ⟨c, e⟩)
    (hlive : now < e) (hroom : c < limit) :
    check limit period now key s =
      (Decision.allow, Store.set s key ⟨c + 1, e⟩) := by
  simp [check, hw, Nat.not_le.mpr hlive, Nat.not_le.mpr hroom]

/-- A live, exhausted window: `check` rejects and leaves the store
unchanged. -/
theorem check_reject_eq (limit period now : Nat) (key : String)
    (s : Store) (c e : Nat) (hw : s key = some ⟨c, e⟩)
    (hlive : now < e) (hfull : limit ≤ c) :
    check limit period now key s =
      (Decision.reject (max 1 ((e - now + 999) / 1000)), s) := by
  simp [check, hw, Nat.not_le.mpr hlive, hfull]

/-- A missing window: `check` allows and creates a fresh window. -/
theorem check_fresh (limit period now : Nat) (key : String) (s : Store)
    (hw : s key = none) :
    check limit period now key s =
      (Decision.allow, Store.set s key ⟨1, now + period * 1000⟩) := by
  simp [check, hw]

/-- An expired window: `check` allows and creates a fresh window. -/
theorem check_expired (limit period now : Nat) (key : String) (s : Store)
    (c e : Nat) (hw : s key = some ⟨c, e⟩) (hexp : e ≤ now) :
    check limit period now key s =
      (Decision.allow, Store.set s key ⟨1, now + period * 1000⟩) := by
  simp [check, hw, hexp]

/-! Claim theorems. -/

/-- C3: for every key whose window has been exhausted (count at least
the limit), once `period` seconds have elapsed since the window started
(its expiry time has been reached), the next `check` for that key
allows the request and starts a fresh window with count 1. -/
theorem C3_window_reset (limit period now : Nat) (key : String)
    (s : Store) (c e : Nat) (hw : s key = some ⟨c, e⟩)
    (hexhausted : limit ≤ c) (helapsed : e ≤ now) :
    check limit period now key s =
      (Decision.allow, Store.set s key ⟨1, now + period * 1000⟩) :=
  check_expired limit period now key s c e hw helapsed

/-- Witness for C3: a window with count 5 under limit 5 that expired at
time 100 resets at time 100. -/
theorem C3_window_reset_witness :
    (Store.set Store.empty "k" ⟨5, 100⟩) "k" = some ⟨5, 100⟩ ∧
    5 ≤ 5 ∧ (100 : Nat) ≤ 100 ∧
    check 5 30 100 "k" (Store.set Store.empty "k" ⟨5, 100⟩) =
      (Decision.allow,
        Store.set (Store.set Store.empty "k" ⟨5, 100⟩) "k" ⟨1, 100 + 30 * 1000⟩) :=
  ⟨by simp [Store.set], le_refl 5, le_refl 100,
    C3_window_reset 5 30 100 "k" (Store.set Store.empty "k" ⟨5, 100⟩) 5 100
      (by simp [Store.set]) (le_refl 5) (le_refl 100)⟩

/-- C5: when `check` rejects a request for a key, the stored state is
completely unchanged: no counter increment and no expiry change. -/
theorem C5_reject_frame (limit period now : Nat) (key : String)
    (s : Store) (r : Nat)
    (hr : (check limit period now key s).1 = Decision.reject r) :
    (check limit period now key s).2 = s := by
  rcases h : s key with _ | ⟨c, e⟩
  · rw [check_fresh limit period now key s h] at hr
    simp at hr
  · by_cases h1 : e ≤ now
    · rw [check_expired limit period now key s c e h h1] at hr
      simp at hr
    · by_cases h2 : limit ≤ c
      · rw [check_reject_eq limit period now key s c e h (Nat.lt_of_not_le h1) h2]
      · rw [check_allow_incr limit period now key s c e h (Nat.lt_of_not_le h1)
          (Nat.lt_of_not_le h2)] at hr
        simp at hr

/-- Witness for C5: with limit 1 and one counted request, a call at
time 0 against a window expiring at 5000 ms rejects with retry-after 5
and leaves the store exactly as it was. -/
theorem C5_reject_frame_witness :
    (check 1 30 0 "k" (Store.set Store.empty "k" ⟨1, 5000⟩)).1 =
      Decision.reject 5 ∧
    (check 1 30 0 "k" (Store.set Store.empty "k" ⟨1, 5000⟩)).2 =
      Store.set Store.empty "k" ⟨1, 5000⟩ :=
  ⟨by decide,
    C5_reject_frame 1 30 0 "k" (Store.set Store.empty "k" ⟨1, 5000⟩) 5 (by decide)⟩

/-- C7: when the counter store is unreachable, `check` fails with
`StoreUnavailable` (no internal retry), the HTTP layer surfaces a
server error (status 500), no handler body is returned, and the
counter state is unchanged (fail-closed). -/
theorem C7_store_unavailable_fail_closed (limit period now : Nat)
    (key : String) (body : List (String × String)) (s : Store) :
    checkE false limit period now key s =
      Except.error LimiterError.storeUnavailable ∧
    handleRequest false limit period now key body s =
      (Response.serverError, s) ∧
    Response.status Response.serverError = 500 :=
  ⟨rfl, rfl, rfl⟩

/-- C9: after running the application lifespan from src/main.py to
completion, the counter-store connection is still open: the shutdown
statement `r.close()` invokes the asynchronous close method without
awaiting it, so the close body — which would have moved the connection
to the closed state — never runs. -/
theorem C9_shutdown_never_closes :
    lifespanRun = ConnState.opened ∧
    lifespanRun ≠ ConnState.closed ∧
    closeBody (lifespanStartup ConnState.uninit) = ConnState.closed :=
  ⟨rfl, by decide, rfl⟩

/-- C10: the `/healthchecker` handler body is the constant dictionary
with message "Server alive.", and every admitted request to the route
receives exactly that body, independent of rate-limiter state or
timing. -/
theorem C10_healthchecker_constant :
    root = [("message", "Server alive.")] ∧
    ∀ (limit period now : Nat) (s : Store) (b : List (String × String)),
      (handleRequest true limit period now "/healthchecker" root s).1 =
        Response.ok b → b = [("message", "Server alive.")] := by
  refine ⟨rfl, ?_⟩
  intro limit period now s b h
  rcases hc : check limit period now "/healthchecker" s with ⟨d, s2⟩
  cases d with
  | allow =>
      have hh : handleRequest true limit period now "/healthchecker" root s =
          (Response.ok root, s2) := by
        simp [handleRequest, checkE, hc]
      rw [hh] at h
      injection h with h
      exact h.symm
  | reject r =>
      have hh : handleRequest true limit period now "/healthchecker" root s =
          (Response.tooManyRequests r, s2) := by
        simp [handleRequest, checkE, hc]
      rw [hh] at h
      simp at h

/-- Witness for C10: an admitted request on the empty store receives
the body with message "Server alive.". -/
theorem C10_healthchecker_constant_witness :
    (handleRequest true 5 30 0 "/healthchecker" root Store.empty).1 =
      Response.ok [("message", "Server alive.")] ∧
    ([("message", "Server alive.")] : List (String × String)) =
      [("message", "Server alive.")] :=
  ⟨by decide,
    C10_healthchecker_constant.2 5 30 0 Store.empty
      [("message", "Server alive.")] (by decide)⟩

/-- C2 counterexample: the static-file mount belongs to the
application's HTTP surface but carries no rate limiter, so it is false
that every part of the surface is gated with limit 5 and period 30. -/
theorem C2_static_mount_not_gated :
    staticMount ∈ appSurface ∧ staticMount.rateLimit = none ∧
    ¬ ∀ r ∈ appSurface, r.rateLimit = some (5, 30) := by
  refine ⟨by decide, rfl, fun h => ?_⟩
  have hm := h staticMount (by decide)
  simp [staticMount] at hm

/-- C2 (amended): every registered HTTP route of the application —
but not the static mount — is gated by the rate limiter with limit 5
and period 30 seconds, and the routes' paths (which key the limiter's
counters) are pairwise distinct, giving an independent counter per
route. -/
theorem C2_routes_gated_per_route :
    (∀ r ∈ appRoutes, r.rateLimit = some (5, 30)) ∧
    (appRoutes.map RouteEntry.path).Nodup ∧
    staticMount.rateLimit = none :=
  ⟨by decide, by decide, rfl⟩

/-- Witness for C2 (amended): the health-check route is registered and
gated with limit 5, period 30. -/
theorem C2_routes_gated_per_route_witness :
    (⟨"/healthchecker", some (5, 30)⟩ : RouteEntry) ∈ appRoutes ∧
    (⟨"/healthchecker", some (5, 30)⟩ : RouteEntry).rateLimit =
      some (5, 30) :=
  ⟨by decide,
    C2_routes_gated_per_route.1 ⟨"/healthchecker", some (5, 30)⟩ (by decide)⟩

/-- C4: every rejection carries a retry-after of at least 1 second and
at most `period` seconds, and the HTTP layer surfaces it as status 429
carrying that value.  The hypothesis `e ≤ now + period * 1000` says the
stored window expires no later than one full period from now, which
holds for every window `check` ever writes (it always sets the expiry
to `period` seconds from the writing time, which is in the past). -/
theorem C4_reject_retry_bounds (limit period now : Nat) (key : String)
    (s : Store) (body : List (String × String)) (hp : 0 < period)
    (c e : Nat) (hw : s key = some ⟨c, e⟩) (hb : e ≤ now + period * 1000)
    (r : Nat) (hr : (check limit period now key s).1 = Decision.reject r) :
    1 ≤ r ∧ r ≤ period ∧
    handleRequest true limit period now key body s =
      (Response.tooManyRequests r, s) ∧
    Response.status (Response.tooManyRequests r) = 429 := by
  by_cases h1 : e ≤ now
  · rw [check_expired limit period now key s c e hw h1] at hr
    simp at hr
  · by_cases h2 : limit ≤ c
    · have hc := check_reject_eq limit period now key s c e hw
        (Nat.lt_of_not_le h1) h2
      rw [hc] at hr
      simp at hr
      subst hr
      refine ⟨le_max_left 1 _, ?_, ?_, rfl⟩
      · have hq : (e - now + 999) / 1000 ≤ period := by omega
        exact max_le hp hq
      · simp [handleRequest, checkE, hc]
    · rw [check_allow_incr limit period now key s c e hw
        (Nat.lt_of_not_le h1) (Nat.lt_of_not_le h2)] at hr
      simp at hr

/-- Witness for C4: a window with count 5 under limit 5 expiring in 20
seconds rejects with retry-after 20, surfaced as a 429. -/
theorem C4_reject_retry_bounds_witness :
    (0 : Nat) < 30 ∧
    (Store.set Store.empty "k" ⟨5, 20000⟩) "k" = some ⟨5, 20000⟩ ∧
    (20000 : Nat) ≤ 0 + 30 * 1000 ∧
    (check 5 30 0 "k" (Store.set Store.empty "k" ⟨5, 20000⟩)).1 =
      Decision.reject 20 ∧
    1 ≤ 20 ∧ 20 ≤ 30 ∧
    handleRequest true 5 30 0 "k" [] (Store.set Store.empty "k" ⟨5, 20000⟩) =
      (Response.tooManyRequests 20, Store.set Store.empty "k" ⟨5, 20000⟩) ∧
    Response.status (Response.tooManyRequests 20) = 429 := by
  have h := C4_reject_retry_bounds 5 30 0 "k"
    (Store.set Store.empty "k" ⟨5, 20000⟩) [] (by decide) 5 20000
    (by simp [Store.set]) (by decide) 20 (by decide)
  exact ⟨by decide, by simp [Store.set], by decide, by decide,
    h.1, h.2.1, h.2.2.1, h.2.2.2⟩

/-- C8: a non-positive limit or period fails fast at registration time
with `InvalidConfiguration`; every route the application registers
carries the positive configuration limit 5, period 30, which registers
successfully; and a request-time `check` never fails with
`InvalidConfiguration`, whatever the store's availability. -/
theorem C8_invalid_configuration :
    (∀ t p : Int, t ≤ 0 ∨ p ≤ 0 →
      registerLimiter t p = Except.error LimiterError.invalidConfiguration) ∧
    (∀ r ∈ appRoutes, r.rateLimit = some (5, 30) ∧ (0 : Nat) < 5 ∧
      (0 : Nat) < 30 ∧ registerLimiter 5 30 = Except.ok (5, 30)) ∧
    (∀ (avail : Bool) (limit period now : Nat) (key : String) (s : Store),
      checkE avail limit period now key s ≠
        Except.error LimiterError.invalidConfiguration) := by
  refine ⟨?_, ?_, ?_⟩
  · intro t p h
    simp only [registerLimiter, if_pos h]
  · intro r hr
    fin_cases hr <;> exact ⟨rfl, by decide, by decide, rfl⟩
  · intro avail limit period now key s h
    cases avail <;> simp [checkE] at h

/-- Witness for C8: registering a zero limit fails with
`InvalidConfiguration`, the root route is registered with the positive
configuration, and a concrete request-time failure is
`StoreUnavailable`, not `InvalidConfiguration`. -/
theorem C8_invalid_configuration_witness :
    ((0 : Int) ≤ 0 ∨ (30 : Int) ≤ 0) ∧
    registerLimiter 0 30 = Except.error LimiterError.invalidConfiguration ∧
    (⟨"/", some (5, 30)⟩ : RouteEntry) ∈ appRoutes ∧
    ((⟨"/", some (5, 30)⟩ : RouteEntry).rateLimit = some (5, 30) ∧
      (0 : Nat) < 5 ∧ (0 : Nat) < 30 ∧
      registerLimiter 5 30 = Except.ok (5, 30)) ∧
    checkE false 5 30 0 "k" Store.empty ≠
      Except.error LimiterError.invalidConfiguration :=
  ⟨Or.inl (le_refl 0),
    C8_invalid_configuration.1 0 30 (Or.inl (le_refl 0)),
    by decide,
    C8_invalid_configuration.2.1 ⟨"/", some (5, 30)⟩ (by decide),
    C8_invalid_configuration.2.2 false 5 30 0 "k" Store.empty⟩

/-- Exhausting a window: starting from a window holding `c ≤ limit`
requests, a run of `limit + 1 - c` further requests for the same key,
all before the window expires, yields allows until the count reaches
`limit` and then one rejection. -/
theorem run_exhaust (limit period : Nat) (key : String) :
    ∀ (ts : List Nat) (s : Store) (c e : Nat),
      s key = some ⟨c, e⟩ → (∀ t ∈ ts, t < e) → c ≤ limit →
      c + ts.length = limit + 1 →
      ∃ r, ((runChecks limit period (ts.map fun t => (t, key)) s).1.map
          Prod.snd) =
        List.replicate (limit - c) Decision.allow ++ [Decision.reject r] := by
  intro ts
  induction ts with
  | nil =>
      intro s c e hw hin hc hlen
      exfalso
      rw [List.length_nil] at hlen
      omega
  | cons t ts ih =>
      intro s c e hw hin hc hlen
      have hlive : t < e := hin t (by simp)
      by_cases hfull : limit ≤ c
      · have hceq : c = limit := Nat.le_antisymm hc hfull
        have hts : ts = [] := by
          have hl2 : (t :: ts).length = ts.length + 1 := by simp
          rw [hl2] at hlen
          exact List.length_eq_zero.mp (by omega)
        subst hts
        refine ⟨max 1 ((e - t + 999) / 1000), ?_⟩
        simp [runChecks, check_reject_eq limit period t key s c e hw hlive hfull,
          hceq]
      · have hlt : c < limit := Nat.lt_of_not_le hfull
        have hstep := check_allow_incr limit period t key s c e hw hlive hlt
        obtain ⟨r, hr⟩ := ih (Store.set s key ⟨c + 1, e⟩) (c + 1) e
          (Store.set_self s key ⟨c + 1, e⟩)
          (fun t2 ht2 => hin t2 (by simp [ht2]))
          hlt
          (by rw [List.length_cons] at hlen; omega)
        refine ⟨r, ?_⟩
        simp only [List.map_cons, runChecks, hstep]
        rw [hr]
        have hstep2 : limit - c = (limit - (c + 1)) + 1 := by omega
        rw [hstep2, List.replicate_succ]
        simp

/-- C1: for every key and configuration with positive limit and
period, starting from the empty store, `limit + 1` requests arriving
within one window for that key decide as `limit` allows followed by
one rejection. -/
theorem C1_first_limit_allowed_then_reject (limit period : Nat)
    (hl : 0 < limit) (hp : 0 < period) (key : String) (t0 : Nat)
    (ts : List Nat) (hlen : ts.length = limit)
    (hin : ∀ t ∈ ts, t < t0 + period * 1000) :
    ∃ r, ((runChecks limit period ((t0 :: ts).map fun t => (t, key))
        Store.empty).1.map Prod.snd) =
      List.replicate limit Decision.allow ++ [Decision.reject r] := by
  have h0 := check_fresh limit period t0 key Store.empty rfl
  obtain ⟨r, hr⟩ := run_exhaust limit period key ts
    (Store.set Store.empty key ⟨1, t0 + period * 1000⟩) 1 (t0 + period * 1000)
    (Store.set_self Store.empty key ⟨1, t0 + period * 1000⟩) hin hl (by omega)
  refine ⟨r, ?_⟩
  simp only [List.map_cons, runChecks, h0]
  rw [hr]
  have hsplit : limit = (limit - 1) + 1 := by omega
  conv_rhs => rw [hsplit, List.replicate_succ]
  simp

/-- Witness for C1: with limit 5 and period 30, six requests for key
"k" at times 0..5 ms decide as five allows then one rejection. -/
theorem C1_first_limit_allowed_then_reject_witness :
    (0 : Nat) < 5 ∧ (0 : Nat) < 30 ∧
    ([1, 2, 3, 4, 5] : List Nat).length = 5 ∧
    (∀ t ∈ ([1, 2, 3, 4, 5] : List Nat), t < 0 + 30 * 1000) ∧
    ∃ r, ((runChecks 5 30 (((0 : Nat) :: [1, 2, 3, 4, 5]).map
        fun t => (t, "k")) Store.empty).1.map Prod.snd) =
      List.replicate 5 Decision.allow ++ [Decision.reject r] :=
  ⟨by decide, by decide, by decide, by decide,
    C1_first_limit_allowed_then_reject 5 30 (by decide) (by decide) "k" 0
      [1, 2, 3, 4, 5] (by decide) (by decide)⟩

/-- A `check` for one key never touches any other key's stored
window. -/
theorem check_frame (limit period now : Nat) (k1 k2 : String)
    (s : Store) (h : k2 ≠ k1) :
    (check limit period now k1 s).2 k2 = s k2 := by
  rcases hw : s k1 with _ | ⟨c, e⟩
  · rw [check_fresh limit period now k1 s hw]
    exact Store.set_other s k1 k2 ⟨1, now + period * 1000⟩ h
  · by_cases h1 : e ≤ now
    · rw [check_expired limit period now k1 s c e hw h1]
      exact Store.set_other s k1 k2 ⟨1, now + period * 1000⟩ h
    · by_cases h2 : limit ≤ c
      · rw [check_reject_eq limit period now k1 s c e hw (Nat.lt_of_not_le h1) h2]
      · rw [check_allow_incr limit period now k1 s c e hw (Nat.lt_of_not_le h1)
          (Nat.lt_of_not_le h2)]
        exact Store.set_other s k1 k2 ⟨c + 1, e⟩ h

/-- The decision of a `check` for a key, and the key's resulting
window, depend only on that key's stored window. -/
theorem check_agree (limit period now : Nat) (k : String)
    (s1 s2 : Store) (h : s1 k = s2 k) :
    (check limit period now k s1).1 = (check limit period now k s2).1 ∧
    (check limit period now k s1).2 k = (check limit period now k s2).2 k := by
  rcases hw : s2 k with _ | ⟨c, e⟩
  · rw [check_fresh limit period now k s1 (h.trans hw),
      check_fresh limit period now k s2 hw]
    simp [Store.set]
  · by_cases h1 : e ≤ now
    · rw [check_expired limit period now k s1 c e (h.trans hw) h1,
        check_expired limit period now k s2 c e hw h1]
      simp [Store.set]
    · by_cases h2 : limit ≤ c
      · rw [check_reject_eq limit period now k s1 c e (h.trans hw)
          (Nat.lt_of_not_le h1) h2,
          check_reject_eq limit period now k s2 c e hw (Nat.lt_of_not_le h1) h2]
        exact ⟨rfl, h⟩
      · rw [check_allow_incr limit period now k s1 c e (h.trans hw)
          (Nat.lt_of_not_le h1) (Nat.lt_of_not_le h2),
          check_allow_incr limit period now k s2 c e hw (Nat.lt_of_not_le h1)
          (Nat.lt_of_not_le h2)]
        simp [Store.set]

/-- Noninterference run lemma: over any event sequence, the decisions
observed for one key, and that key's final window, are exactly those of
the run restricted to that key's events, for any pair of starting
stores that agree on the key. -/
theorem runChecks_project (limit period : Nat) (k : String) :
    ∀ (evs : List (Nat × String)) (s1 s2 : Store), s1 k = s2 k →
      (((runChecks limit period evs s1).1.filter
          fun p => p.1 == k).map Prod.snd =
        ((runChecks limit period (evs.filter fun e2 => e2.2 == k) s2).1).map
          Prod.snd) ∧
      (runChecks limit period evs s1).2 k =
        (runChecks limit period (evs.filter fun e2 => e2.2 == k) s2).2 k := by
  intro evs
  induction evs with
  | nil => intro s1 s2 h; exact ⟨rfl, h⟩
  | cons ev evs ih =>
      rcases ev with ⟨t, k2⟩
      intro s1 s2 h
      by_cases hk : k2 = k
      · subst hk
        have hag := check_agree limit period t k2 s1 s2 h
        have hih := ih (check limit period t k2 s1).2
          (check limit period t k2 s2).2 hag.2
        constructor
        · simp only [runChecks, List.filter_cons, beq_self_eq_true, if_pos,
            List.map_cons]
          rw [hag.1]
          simp only [List.filter_cons, beq_self_eq_true] at hih ⊢
          rw [hih.1]
        · simp only [runChecks, List.filter_cons, beq_self_eq_true]
          exact hih.2
      · have hbeq : (k2 == k) = false := beq_eq_false_iff_ne.mpr hk
        have hframe : (check limit period t k2 s1).2 k = s2 k := by
          rw [check_frame limit period t k2 k s1 (Ne.symm hk)]
          exact h
        have hih := ih (check limit period t k2 s1).2 s2 hframe
        constructor
        · simp only [runChecks, List.filter_cons, hbeq, List.map_cons]
          exact hih.1
        · simp only [runChecks, List.filter_cons, hbeq]
          exact hih.2

/-- C6: a `check` for one key leaves every other key's window
unchanged, and over any interleaved event sequence the decisions for a
key coincide with those of the run containing only that key's events —
other-key traffic cannot influence them. -/
theorem C6_key_independence :
    (∀ (limit period now : Nat) (k1 k2 : String) (s : Store), k2 ≠ k1 →
      (check limit period now k1 s).2 k2 = s k2) ∧
    (∀ (limit period : Nat) (k : String) (evs : List (Nat × String))
      (s : Store),
      ((runChecks limit period evs s).1.filter
          fun p => p.1 == k).map Prod.snd =
        ((runChecks limit period (evs.filter fun e2 => e2.2 == k) s).1).map
          Prod.snd) :=
  ⟨fun limit period now k1 k2 s h => check_frame limit period now k1 k2 s h,
    fun limit period k evs s => (runChecks_project limit period k evs s s rfl).1⟩

/-- Witness for C6: a check for key "a" leaves key "b" untouched, and
the decisions for "a" in an interleaved run equal those of the run with
the "b" traffic removed. -/
theorem C6_key_independence_witness :
    ("b" : String) ≠ "a" ∧
    (check 5 30 0 "a" Store.empty).2 "b" = Store.empty "b" ∧
    ((runChecks 5 30 [(0, "a"), (1, "b"), (2, "a")] Store.empty).1.filter
        fun p => p.1 == "a").map Prod.snd =
      ((runChecks 5 30 ([(0, "a"), (1, "b"), (2, "a")].filter
        fun e2 => e2.2 == "a") Store.empty).1).map Prod.snd :=
  ⟨by decide, C6_key_independence.1 5 30 0 "a" "b" Store.empty (by decide),
    C6_key_independence.2 5 30 "a" [(0, "a"), (1, "b"), (2, "a")] Store.empty⟩

end CV
